import Mathlib

set_option maxRecDepth 40000

/-!
Shallow embedding of the HTML export pipeline of `src/cogs/export_html.py`
(the `!export` Discord cog).  Strings are modelled as `List Char`; every
Python `re.sub` / `str.replace` pass is modelled as an explicit left-to-right
scanner with the exact semantics of the corresponding compiled pattern
(leftmost match, lazy or greedy quantifiers as in the source, lookarounds
checked against the original text, replacements never rescanned).
Scanners take a fuel argument so that all recursion is structural; fuel is
always instantiated to `length + 1`, which is sufficient because every step
consumes at least one input character.
-/

/-- Python `\s` on the inputs considered here (ASCII whitespace). -/
def py_space (c : Char) : Bool :=
  c == ' ' || c == '\t' || c == '\n' || c == '\r' || c == '\x0b' || c == '\x0c'

/-- Python `\w` (word character) as used in the lookbehinds of
`apply_inline_formatting`: ASCII letters/digits/underscore; non-ASCII
characters occurring in this development (katakana) are word characters in
Python's unicode `\w`, so all non-ASCII codepoints are treated as word
characters here. -/
def py_word (c : Char) : Bool :=
  c.isAlphanum || c == '_' || decide (127 < c.toNat)

/-- The single-quote character (escaped by Python `html.escape`). -/
def squote : Char := Char.ofNat 39

/-- Per-character translation of Python `html.escape(s, quote=True)`. -/
def escape_char (c : Char) : List Char :=
  if c = '&' then ['&', 'a', 'm', 'p', ';']
  else if c = '<' then ['&', 'l', 't', ';']
  else if c = '>' then ['&', 'g', 't', ';']
  else if c = '"' then ['&', 'q', 'u', 'o', 't', ';']
  else if c = squote then ['&', '#', 'x', '2', '7', ';']
  else [c]

/-- Python `html.escape(s, quote=True)`: `&` is replaced first, then
`<`, `>`, `"`, `'`; the net effect is this per-character map. -/
def html_escape : List Char → List Char
  | [] => []
  | c :: t => escape_char c ++ html_escape t

/-- Decoder for the five HTML entities produced by `html_escape`
(used to state that escaping happens exactly once and is invertible). -/
def unescape_go : Nat → List Char → List Char
  | 0, s => s
  | _ + 1, [] => []
  | n + 1, c :: t =>
    if c = '&' then
      if List.isPrefixOf ['a', 'm', 'p', ';'] t then '&' :: unescape_go n (t.drop 4)
      else if List.isPrefixOf ['l', 't', ';'] t then '<' :: unescape_go n (t.drop 3)
      else if List.isPrefixOf ['g', 't', ';'] t then '>' :: unescape_go n (t.drop 3)
      else if List.isPrefixOf ['q', 'u', 'o', 't', ';'] t then '"' :: unescape_go n (t.drop 5)
      else if List.isPrefixOf ['#', 'x', '2', '7', ';'] t then squote :: unescape_go n (t.drop 5)
      else c :: unescape_go n t
    else c :: unescape_go n t

/-- Entity decoder with sufficient fuel. -/
def unescape_entities (s : List Char) : List Char := unescape_go (s.length + 1) s

/-- Number of positions of `s` at which `p` occurs as a contiguous substring. -/
def count_occ (p : List Char) : List Char → Nat
  | [] => 0
  | c :: t => (if p.isPrefixOf (c :: t) then 1 else 0) + count_occ p t

/-- Index of the first occurrence of `p` in `s` (length of `s` if absent). -/
def first_occ (p : List Char) : List Char → Nat
  | [] => 0
  | c :: t => if p.isPrefixOf (c :: t) then 0 else 1 + first_occ p t

/-- Stack-based scanner checking that the emphasis tags `<strong>`,
`</strong>`, `<em>`, `</em>` occurring in a fragment are properly nested
(`true` on the stack entries means an open `strong`). -/
def emph_scan : Nat → List Bool → List Char → Bool
  | 0, st, _ => st.isEmpty
  | _ + 1, st, [] => st.isEmpty
  | n + 1, st, s@(_ :: t) =>
    if "<strong>".data.isPrefixOf s then emph_scan n (true :: st) (s.drop 8)
    else if "</strong>".data.isPrefixOf s then
      match st with
      | true :: st2 => emph_scan n st2 (s.drop 9)
      | _ => false
    else if "<em>".data.isPrefixOf s then emph_scan n (false :: st) (s.drop 4)
    else if "</em>".data.isPrefixOf s then
      match st with
      | false :: st2 => emph_scan n st2 (s.drop 5)
      | _ => false
    else emph_scan n st t

/-- Proper nesting of emphasis tags in a rendered fragment. -/
def emph_nest_ok (s : List Char) : Bool := emph_scan (s.length + 1) [] s

/-- Directory lookups supplied by the guild: `get_member` (display name),
`get_role` (name), `get_channel` (name); `none` models a failed lookup. -/
structure Directory where
  user : Nat → Option (List Char)
  role : Nat → Option (List Char)
  channel : Nat → Option (List Char)

/-- Source `_display_user`: member display name prefixed with `@`, empty
string when the guild is absent or the member cannot be found. -/
def display_user (guild : Option Directory) (id : Nat) : List Char :=
  match guild with
  | none => []
  | some g =>
    match g.user id with
    | some n => '@' :: n
    | none => []

/-- Source `_display_role`: role name prefixed with `@`, placeholder
`@ロール` when the guild is absent or the role cannot be found. -/
def display_role (guild : Option Directory) (id : Nat) : List Char :=
  match guild with
  | none => "@ロール".data
  | some g =>
    match g.role id with
    | some n => '@' :: n
    | none => "@ロール".data

/-- Source `_display_channel`: channel name prefixed with `#`, placeholder
`#チャンネル` when the guild is absent or the channel cannot be found. -/
def display_channel (guild : Option Directory) (id : Nat) : List Char :=
  match guild with
  | none => "#チャンネル".data
  | some g =>
    match g.channel id with
    | some n => '#' :: n
    | none => "#チャンネル".data

/-- Decimal value of a digit run (Python `int(m.group(1))`). -/
def digits_val (ds : List Char) : Nat :=
  ds.foldl (fun a c => 10 * a + (c.toNat - 48)) 0

/-- Match of `USER_MENTION_RE = <@!?(\d+)>` at the head of the input;
returns the captured id value and the remaining text. -/
def match_user_mention : List Char → Option (Nat × List Char)
  | '<' :: '@' :: u =>
    let u2 := match u with
      | '!' :: v => v
      | _ => u
    let ds := u2.takeWhile Char.isDigit
    match u2.dropWhile Char.isDigit with
    | '>' :: r => if ds.isEmpty then none else some (digits_val ds, r)
    | _ => none
  | _ => none

/-- Match of `ROLE_MENTION_RE = <@&(\d+)>` at the head of the input. -/
def match_role_mention : List Char → Option (Nat × List Char)
  | '<' :: '@' :: '&' :: u =>
    let ds := u.takeWhile Char.isDigit
    match u.dropWhile Char.isDigit with
    | '>' :: r => if ds.isEmpty then none else some (digits_val ds, r)
    | _ => none
  | _ => none

/-- Match of `CHANNEL_MENTION_RE = <#(\d+)>` at the head of the input. -/
def match_channel_mention : List Char → Option (Nat × List Char)
  | '<' :: '#' :: u =>
    let ds := u.takeWhile Char.isDigit
    match u.dropWhile Char.isDigit with
    | '>' :: r => if ds.isEmpty then none else some (digits_val ds, r)
    | _ => none
  | _ => none

/-- Scanner of `USER_MENTION_RE.sub`. -/
def sub_user_go (guild : Option Directory) : Nat → List Char → List Char
  | 0, s => s
  | _ + 1, [] => []
  | n + 1, c :: t =>
    match match_user_mention (c :: t) with
    | some (id, r) => display_user guild id ++ sub_user_go guild n r
    | none => c :: sub_user_go guild n t

/-- Scanner of `ROLE_MENTION_RE.sub`. -/
def sub_role_go (guild : Option Directory) : Nat → List Char → List Char
  | 0, s => s
  | _ + 1, [] => []
  | n + 1, c :: t =>
    match match_role_mention (c :: t) with
    | some (id, r) => display_role guild id ++ sub_role_go guild n r
    | none => c :: sub_role_go guild n t

/-- Scanner of `CHANNEL_MENTION_RE.sub`. -/
def sub_channel_go (guild : Option Directory) : Nat → List Char → List Char
  | 0, s => s
  | _ + 1, [] => []
  | n + 1, c :: t =>
    match match_channel_mention (c :: t) with
    | some (id, r) => display_channel guild id ++ sub_channel_go guild n r
    | none => c :: sub_channel_go guild n t

/-- Source `replace_discord_mentions_to_names`: the user substitution runs
over the raw text, then the role substitution over its result, then the
channel substitution over that result. -/
def replace_discord_mentions_to_names (raw : List Char) (guild : Option Directory) : List Char :=
  let s1 := sub_user_go guild (raw.length + 1) raw
  let s2 := sub_role_go guild (s1.length + 1) s1
  sub_channel_go guild (s2.length + 1) s2

/-- Python `str.replace(pat, rep)` (all non-overlapping occurrences,
left to right, replacements not rescanned); `pat` is nonempty. -/
def str_replace_go (pat rep : List Char) : Nat → List Char → List Char
  | 0, s => s
  | _ + 1, [] => []
  | n + 1, c :: t =>
    if pat.isPrefixOf (c :: t) && !pat.isEmpty then
      rep ++ str_replace_go pat rep n ((c :: t).drop pat.length)
    else c :: str_replace_go pat rep n t

/-- Characters admitted by the URL body class `[^\s<>()\]\}]` of `URL_RE`. -/
def url_char (c : Char) : Bool :=
  !(py_space c || c == '<' || c == '>' || c == '(' || c == ')' || c == ']' ||
    c == Char.ofNat 125)

/-- Match of `URL_RE = (https?://[^\s<>()\]\}]+)` at the head of the input;
returns the matched URL text and the remaining text. -/
def match_url : List Char → Option (List Char × List Char)
  | 'h' :: 't' :: 't' :: 'p' :: rest =>
    match rest with
    | 's' :: ':' :: '/' :: '/' :: w =>
      let run := w.takeWhile url_char
      if run.isEmpty then none
      else some ("https://".data ++ run, w.dropWhile url_char)
    | ':' :: '/' :: '/' :: w =>
      let run := w.takeWhile url_char
      if run.isEmpty then none
      else some ("http://".data ++ run, w.dropWhile url_char)
    | _ => none
  | _ => none

/-- Source `linkify_escaped`: `URL_RE.sub` wrapping each URL in an anchor
that repeats the URL text as its label. -/
def linkify_go : Nat → List Char → List Char
  | 0, s => s
  | _ + 1, [] => []
  | n + 1, c :: t =>
    match match_url (c :: t) with
    | some (url, r) =>
      "<a href=\"".data ++ url ++ "\" target=\"_blank\" rel=\"noopener noreferrer\">".data ++
        url ++ "</a>".data ++ linkify_go n r
    | none => c :: linkify_go n t

def linkify_escaped (escaped_text : List Char) : List Char :=
  linkify_go (escaped_text.length + 1) escaped_text

/-- Lazy search for the closing doubled delimiter of `\*\*(.+?)\*\*` /
`~~(.+?)~~`: the shortest nonempty run of non-newline characters followed
by the doubled delimiter.  `acc` is the group read so far, reversed. -/
def dbl_close (d : Char) (acc : List Char) : List Char → Option (List Char × List Char)
  | [] => none
  | c :: t =>
    if !acc.isEmpty && c == d && t.head? == some d then some (acc.reverse, t.tail)
    else if c == '\n' then none
    else dbl_close d (c :: acc) t

/-- Scanner of `re.sub` for a doubled-delimiter pattern (`BOLD_RE`, `STRIKE_RE`). -/
def dbl_sub_go (d : Char) (tag_open tag_close : List Char) : Nat → List Char → List Char
  | 0, s => s
  | _ + 1, [] => []
  | n + 1, c :: t =>
    if c == d && t.head? == some d then
      match dbl_close d [] t.tail with
      | some (grp, rest) =>
        tag_open ++ grp ++ tag_close ++ dbl_sub_go d tag_open tag_close n rest
      | none => c :: dbl_sub_go d tag_open tag_close n t
    else c :: dbl_sub_go d tag_open tag_close n t

/-- Lazy search for the closing delimiter of the italic patterns
`(?<!\*)\*(?!\*)(.+?)(?<!\*)\*(?!\*)` (and the `_` analogue): the closing
delimiter must not be preceded or followed by another delimiter, with the
group (nonempty, non-newline) extended lazily. -/
def sgl_close (d : Char) (acc : List Char) : List Char → Option (List Char × List Char)
  | [] => none
  | c :: t =>
    if !acc.isEmpty && c == d && acc.head? != some d && t.head? != some d then
      some (acc.reverse, t)
    else if c == '\n' then none
    else sgl_close d (c :: acc) t

/-- Scanner of `re.sub` for a single-delimiter italic pattern with negative
lookarounds; `prev` is the character preceding the scan position in the
original text (lookbehind). -/
def sgl_sub_go (d : Char) (tag_open tag_close : List Char) :
    Nat → Option Char → List Char → List Char
  | 0, _, s => s
  | _ + 1, _, [] => []
  | n + 1, prev, c :: t =>
    if c == d && prev != some d && t.head? != some d then
      match sgl_close d [] t with
      | some (grp, rest) =>
        tag_open ++ grp ++ tag_close ++ sgl_sub_go d tag_open tag_close n (some d) rest
      | none => c :: sgl_sub_go d tag_open tag_close n (some c) t
    else c :: sgl_sub_go d tag_open tag_close n (some c) t

/-- Lookbehind `(?<!<)(?<![\w/])` of the generic mention patterns. -/
def mention_prev_bad : Option Char → Bool
  | none => false
  | some c => c == '<' || py_word c || c == '/'

/-- Character class `[^\s<]` (run after `@` in the generic `@`-mention pattern). -/
def at_run_char (c : Char) : Bool := !(py_space c || c == '<')

/-- Scanner of `re.sub` for `(?<!<)(?<![\w/])(@[^\s<]+)` wrapping the token
in a `mention` span. -/
def mention_at_go : Nat → Option Char → List Char → List Char
  | 0, _, s => s
  | _ + 1, _, [] => []
  | n + 1, prev, c :: t =>
    if c == '@' && !mention_prev_bad prev then
      let run := t.takeWhile at_run_char
      if run.isEmpty then c :: mention_at_go n (some c) t
      else
        "<span class=\"mention\">@".data ++ run ++ "</span>".data ++
          mention_at_go n (some (run.getLastD c)) (t.drop run.length)
    else c :: mention_at_go n (some c) t

/-- Scanner of `re.sub` for `(?<!<)(?<![\w/])(#\S+)` wrapping the token in
a `mention` span (the run is `\S+`: any non-whitespace characters). -/
def mention_hash_go : Nat → Option Char → List Char → List Char
  | 0, _, s => s
  | _ + 1, _, [] => []
  | n + 1, prev, c :: t =>
    if c == '#' && !mention_prev_bad prev then
      let run := t.takeWhile (fun x => !py_space x)
      if run.isEmpty then c :: mention_hash_go n (some c) t
      else
        "<span class=\"mention\">#".data ++ run ++ "</span>".data ++
          mention_hash_go n (some (run.getLastD c)) (t.drop run.length)
    else c :: mention_hash_go n (some c) t

/-- Source `apply_inline_formatting`: on an already-escaped line, replace
broadcast mentions, autolink URLs, then bold, strikethrough, the two italic
forms, then the generic `@`/`#` mention highlighting, in that order. -/
def apply_inline_formatting (escaped_text : List Char) : List Char :=
  let e1 := str_replace_go "@everyone".data
    "<span class=\"mention-ping\">@everyone</span>".data
    (escaped_text.length + 1) escaped_text
  let e2 := str_replace_go "@here".data
    "<span class=\"mention-ping\">@here</span>".data (e1.length + 1) e1
  let e3 := linkify_escaped e2
  let e4 := dbl_sub_go '*' "<strong>".data "</strong>".data (e3.length + 1) e3
  let e5 := dbl_sub_go '~' "<del>".data "</del>".data (e4.length + 1) e4
  let e6 := sgl_sub_go '*' "<em>".data "</em>".data (e5.length + 1) none e5
  let e7 := sgl_sub_go '_' "<em>".data "</em>".data (e6.length + 1) none e6
  let e8 := mention_at_go (e7.length + 1) none e7
  mention_hash_go (e8.length + 1) none e8

/-- Python `raw_text.split("```")`: split on non-overlapping occurrences of
the triple-backtick fence, left to right. -/
def split_fence_go : Nat → List Char → List Char → List (List Char)
  | 0, acc, s => [acc.reverse ++ s]
  | _ + 1, acc, [] => [acc.reverse]
  | n + 1, acc, c :: t =>
    if "```".data.isPrefixOf (c :: t) then
      acc.reverse :: split_fence_go n [] ((c :: t).drop 3)
    else split_fence_go n (c :: acc) t

def split_fence (s : List Char) : List (List Char) :=
  split_fence_go (s.length + 1) [] s

/-- Python `str.splitlines()` restricted to `\n` separators: splits at each
newline, without a trailing empty line for a trailing newline, and the empty
string yields the empty list. -/
def py_splitlines : Nat → List Char → List (List Char)
  | 0, _ => []
  | _ + 1, [] => []
  | n + 1, s@(_ :: _) =>
    let l := s.takeWhile (fun c => c != '\n')
    match s.dropWhile (fun c => c != '\n') with
    | [] => [l]
    | _ :: rest => l :: py_splitlines n rest

/-- Python `str.isspace()` whitespace — the exact character set stripped
by `str.strip()`: U+0009 to U+000D, U+001C to U+0020, U+0085, U+00A0,
U+1680, U+2000 to U+200A, U+2028, U+2029, U+202F, U+205F and U+3000. -/
def py_str_space (c : Char) : Bool :=
  let n := c.toNat
  (decide (9 ≤ n) && decide (n ≤ 13)) || (decide (28 ≤ n) && decide (n ≤ 32)) ||
    n == 133 || n == 160 || n == 5760 ||
    (decide (8192 ≤ n) && decide (n ≤ 8202)) || n == 8232 || n == 8233 ||
    n == 8239 || n == 8287 || n == 12288

/-- Python `str.strip()`: removes the `str.isspace()` whitespace
characters (Unicode whitespace included) from both ends. -/
def py_strip (s : List Char) : List Char :=
  ((s.dropWhile py_str_space).reverse.dropWhile py_str_space).reverse

/-- Character class of the language-tag pattern `[A-Za-z0-9_+\-#.]`. -/
def restricted_char (c : Char) : Bool :=
  c.isAlphanum || c == '_' || c == '+' || c == '-' || c == '#' || c == '.'

/-- Rendering of one fenced code fragment (the `is_code` branch of
`render_discord_markdown`): when the fragment contains a newline and its
first line is at most 20 characters long and strips to a nonempty string
matching the restricted identifier pattern, that stripped first line is the
language tag, removed from the body; the body is escaped into a
`pre`/`code` fragment, followed by a language caption when a tag was found. -/
def render_code_fragment (part : List Char) : List Char :=
  let first := part.takeWhile (fun c => c != '\n')
  let has_nl := part.any (fun c => c == '\n')
  let stripped := py_strip first
  let tag_ok := has_nl && decide (first.length ≤ 20) && !stripped.isEmpty &&
    stripped.all restricted_char
  let code := if tag_ok then part.drop (first.length + 1) else part
  let lang := if tag_ok then stripped else []
  "<pre class=\"codeblock\"><code>".data ++ html_escape code ++ "</code></pre>".data ++
    (if lang.isEmpty then [] else
      "<div class=\"lang\">".data ++ html_escape lang ++ "</div>".data)

/-- Rendering of one prose line: heading markers `### `, `## `, `# `
(checked longest first) yield heading fragments with the remainder escaped
and no inline formatting; any other line is escaped then inline-formatted. -/
def render_line (line : List Char) : List Char :=
  if "### ".data.isPrefixOf line then
    "<div class=\"h3\">".data ++ html_escape (line.drop 4) ++ "</div>".data
  else if "## ".data.isPrefixOf line then
    "<div class=\"h2\">".data ++ html_escape (line.drop 3) ++ "</div>".data
  else if "# ".data.isPrefixOf line then
    "<div class=\"h1\">".data ++ html_escape (line.drop 2) ++ "</div>".data
  else apply_inline_formatting (html_escape line)

/-- Rendering of one prose fragment: split into lines (an empty fragment
still yields one empty line), render each line, join with `<br>`. -/
def render_prose_fragment (part : List Char) : List Char :=
  let ls := py_splitlines (part.length + 1) part
  let ls2 := if ls.isEmpty then [[]] else ls
  List.intercalate "<br>".data (ls2.map render_line)

/-- Fragment renderer indexed by split position: odd positions are code. -/
def render_fragment (i : Nat) (part : List Char) : List Char :=
  if i % 2 = 1 then render_code_fragment part else render_prose_fragment part

/-- Concatenation of the rendered fragments, tracking the split index. -/
def render_fragments_go : Nat → List (List Char) → List Char
  | _, [] => []
  | i, p :: ps => render_fragment i p ++ render_fragments_go (i + 1) ps

/-- Source `render_discord_markdown`: resolve mentions over the whole raw
text, split on the triple-backtick fence, render fragments at odd split
positions as code and the others as prose, and concatenate. -/
def render_discord_markdown (raw_text : List Char) (guild : Option Directory) : List Char :=
  render_fragments_go 0 (split_fence (replace_discord_mentions_to_names raw_text guild))

/-- Attachment descriptor: filename, URL, optional declared content type. -/
structure Attachment where
  filename : List Char
  url : List Char
  content_type : Option (List Char)

/-- Image test of `attachments_to_html`: declared content type starts with
`image/`, or the lowercased filename ends in a known image suffix. -/
def is_image (a : Attachment) : Bool :=
  "image/".data.isPrefixOf (a.content_type.getD []) ||
    [".png", ".jpg", ".jpeg", ".gif", ".webp"].any
      (fun suf => suf.data.isSuffixOf (a.filename.map Char.toLower))

/-- Thumbnail fragment for an image attachment. -/
def image_html (a : Attachment) : List Char :=
  "<a href=\"".data ++ html_escape a.url ++
    "\" target=\"_blank\" rel=\"noopener noreferrer\"><img src=\"".data ++
    html_escape a.url ++ "\" alt=\"".data ++ html_escape a.filename ++ "\"></a>".data

/-- Download-link fragment for a non-image attachment. -/
def file_html (a : Attachment) : List Char :=
  "<div class=\"filelink\"><a href=\"".data ++ html_escape a.url ++
    "\" target=\"_blank\" rel=\"noopener noreferrer\">".data ++
    html_escape a.filename ++ "</a></div>".data

/-- The classification loop of `attachments_to_html`: images and files are
appended to two separate lists in source order. -/
def attach_loop : List Attachment → List (List Char) → List (List Char) →
    List (List Char) × List (List Char)
  | [], imgs, files => (imgs, files)
  | a :: rest, imgs, files =>
    if is_image a then attach_loop rest (imgs ++ [image_html a]) files
    else attach_loop rest imgs (files ++ [file_html a])

/-- Source `attachments_to_html`: empty string for no attachments;
otherwise all image thumbnails (wrapped in one `attach` div) followed by
all file links. -/
def attachments_to_html (attachments : List Attachment) : List Char :=
  if attachments.isEmpty then []
  else
    let (imgs, files) := attach_loop attachments [] []
    (if imgs.isEmpty then [] else
      "<div class=\"attach\">".data ++ imgs.flatten ++ "</div>".data) ++ files.flatten

/-- Source constant `SAFE_MAX_BYTES = 8 * 1024 * 1024 - 200_000`. -/
def SAFE_MAX_BYTES : Nat := 8 * 1024 * 1024 - 200000

/-- Source constant `MAX_LIMIT = 5000`. -/
def MAX_LIMIT : Nat := 5000

/-- The halving step `current = max(50, current // 2)` of the shrink loop. -/
def shrink_step (current : Nat) : Nat := max 50 (current / 2)

/-- Outcome of one `!export` invocation: a document emitted at some count,
the give-up failure, or fuel exhaustion of the model (never reached). -/
inductive ExportOutcome where
  | emit (count : Nat)
  | give_up
  | out_of_fuel
deriving DecidableEq

/-- The size-bounded retry loop of `ExportHtmlCog.export`, abstracted over
`page_bytes count` = byte length of the UTF-8 encoded document rendered
from `count` fetched messages: emit when the document fits the safety
ceiling, give up when the count is already at or below the floor of 50,
otherwise halve (clamped to the floor) and retry. -/
def export_loop_go (page_bytes : Nat → Nat) : Nat → Nat → ExportOutcome
  | 0, _ => .out_of_fuel
  | fuel + 1, current =>
    if page_bytes current ≤ SAFE_MAX_BYTES then .emit current
    else if current ≤ 50 then .give_up
    else export_loop_go page_bytes fuel (shrink_step current)

/-- The limit clamp `limit = max(1, min(limit, MAX_LIMIT))`. -/
def clamp_limit (limit : Nat) : Nat := max 1 (min limit MAX_LIMIT)

/-- Source `ExportHtmlCog.export` driver: clamp the caller limit and run
the shrink loop (fuel `clamped + 1` is sufficient, see the C3 theorem). -/
def export_driver (page_bytes : Nat → Nat) (limit : Nat) : ExportOutcome :=
  export_loop_go page_bytes (clamp_limit limit + 1) (clamp_limit limit)

/-- Specification of an outcome of `export_driver f 5000`: an emitted
document fits the ceiling at a count between the floor and the limit; the
give-up failure implies even the floor count of 50 was too large. -/
def export_result_spec (f : Nat → Nat) : ExportOutcome → Prop
  | .emit c => f c ≤ SAFE_MAX_BYTES ∧ 50 ≤ c ∧ c ≤ 5000
  | .give_up => SAFE_MAX_BYTES < f 50
  | .out_of_fuel => False

/-- Directory of the C1 counterexample: user 1 resolves to the display name
`a<#2>b`, whose `<#2>` is itself a channel reference pattern; channel 2 is
unresolvable. -/
def c1_dir : Directory :=
  ⟨fun i => if i = 1 then some "a<#2>b".data else none, fun _ => none, fun _ => none⟩

/-- Directory of the C2 counterexample: user 123 resolves to `Alice`. -/
def c2_dir : Directory :=
  ⟨fun i => if i = 123 then some "Alice".data else none, fun _ => none, fun _ => none⟩

/-- Directory with empty lookups for the C7 counterexample and witness. -/
def c7_dir : Directory := ⟨fun _ => none, fun _ => none, fun _ => none⟩

/-- Source-order attachment pair for the C8 counterexample: a generic file
followed by an image. -/
def c8_file : Attachment := ⟨"a.txt".data, "u1".data, none⟩

def c8_img : Attachment := ⟨"b.png".data, "u2".data, none⟩

/-! ### Helper lemmas about the escape stage -/

theorem escape_char_no_raw (c : Char) :
    (escape_char c).all (fun x => !(x == '<' || x == '>' || x == '"')) = true := by
  unfold escape_char
  split_ifs with h1 h2 h3 h4 h5
  · decide
  · decide
  · decide
  · decide
  · decide
  · simp [h2, h3, h4]

theorem escape_char_length_pos (c : Char) : 1 ≤ (escape_char c).length := by
  unfold escape_char
  split_ifs <;> simp

theorem unescape_go_html_escape (s : List Char) :
    ∀ n, s.length ≤ n → unescape_go n (html_escape s) = s := by
  induction s with
  | nil =>
    intro n _
    cases n <;> simp [html_escape, unescape_go]
  | cons c t ih =>
    intro n hn
    cases n with
    | zero => simp at hn
    | succ m =>
      have hm : t.length ≤ m := by simpa using hn
      by_cases h1 : c = '&'
      · subst h1
        simp [html_escape, escape_char, unescape_go, List.isPrefixOf, ih m hm]
      · by_cases h2 : c = '<'
        · subst h2
          simp [html_escape, escape_char, unescape_go, List.isPrefixOf, ih m hm]
        · by_cases h3 : c = '>'
          · subst h3
            simp [html_escape, escape_char, unescape_go, List.isPrefixOf, ih m hm]
          · by_cases h4 : c = '"'
            · subst h4
              simp [html_escape, escape_char, unescape_go, List.isPrefixOf, ih m hm]
            · by_cases h5 : c = squote
              · subst h5
                simp [html_escape, escape_char, unescape_go, List.isPrefixOf, ih m hm,
                  h1, h2, h3, h4]
              · simp [html_escape, escape_char, unescape_go, h1, h2, h3, h4, h5, ih m hm]

/-! ### Claim C1 -/

/-- Claim C1, corrected.  Resolution of references happens before
HTML-escaping; the escape maps every occurrence of the characters `<`, `>`,
`&`, `"` to its entity exactly once, invertibly (decoding the escape output
restores the input, so nothing is double-escaped and nothing merges), and no
raw `<`, `>` or `"` survives the escape.  The original claim fails for a
resolved display name that itself contains a reference pattern: the later
substitution passes re-parse such a name and replace the pattern before any
escaping, so its markup-sensitive characters can vanish from the output
instead of appearing escaped (see the counterexample). -/
theorem claim_c1_escaping :
    (∀ s : List Char, unescape_entities (html_escape s) = s) ∧
    (∀ s : List Char,
      (html_escape s).all (fun x => !(x == '<' || x == '>' || x == '"')) = true) ∧
    (∀ raw guild, render_discord_markdown raw guild =
      render_fragments_go 0 (split_fence (replace_discord_mentions_to_names raw guild))) := by
  refine ⟨fun s => ?_, fun s => ?_, fun raw guild => rfl⟩
  · have hlen : s.length ≤ (html_escape s).length + 1 := by
      induction s with
      | nil => simp
      | cons c t ih =>
        have := escape_char_length_pos c
        simp only [html_escape, List.length_append, List.length_cons]
        omega
    exact unescape_go_html_escape s _ hlen
  · induction s with
    | nil => decide
    | cons c t ih =>
      simp only [html_escape, List.all_append, escape_char_no_raw, ih, Bool.and_self]

/-- Counterexample to claim C1 as stated: the raw body `<@1>` resolves to
the display name `a<#2>b`, but the channel substitution pass then replaces
the `<#2>` inside the resolved name, so the name's `<` and `>` appear in
the rendered output neither raw nor escaped — `&lt;` and `&gt;` occur zero
times instead of exactly once. -/
theorem claim_c1_counterexample :
    render_discord_markdown "<@1>".data (some c1_dir) =
      "<span class=\"mention\">@a#チャンネルb</span>".data ∧
    count_occ "&lt;".data (render_discord_markdown "<@1>".data (some c1_dir)) = 0 ∧
    count_occ "&gt;".data (render_discord_markdown "<@1>".data (some c1_dir)) = 0 := by
  decide

/-! ### Helper lemmas about the export driver -/

theorem export_loop_go_emit (f : Nat → Nat) (n c : Nat) (h : f c ≤ SAFE_MAX_BYTES)
    (hn : n ≠ 0) : export_loop_go f n c = .emit c := by
  cases n with
  | zero => exact absurd rfl hn
  | succ m => simp [export_loop_go, h]

theorem export_loop_go_giveup (f : Nat → Nat) (n c : Nat) (h1 : ¬ f c ≤ SAFE_MAX_BYTES)
    (h2 : c ≤ 50) (hn : n ≠ 0) : export_loop_go f n c = .give_up := by
  cases n with
  | zero => exact absurd rfl hn
  | succ m => simp [export_loop_go, h1, h2]

theorem export_loop_go_step (f : Nat → Nat) (n c : Nat) (h1 : ¬ f c ≤ SAFE_MAX_BYTES)
    (h2 : ¬ c ≤ 50) (hn : n ≠ 0) :
    export_loop_go f n c = export_loop_go f (n - 1) (shrink_step c) := by
  cases n with
  | zero => exact absurd rfl hn
  | succ m => simp [export_loop_go, h1, h2]

theorem shrink_step_lt (c : Nat) (h : 50 < c) : shrink_step c < c :=
  Nat.max_lt.mpr ⟨h, Nat.div_lt_self (by omega) (by omega)⟩

theorem export_loop_go_total (f : Nat → Nat) :
    ∀ fuel c, c < fuel → export_loop_go f fuel c ≠ .out_of_fuel := by
  intro fuel
  induction fuel with
  | zero => omega
  | succ n ih =>
    intro c h
    by_cases h1 : f c ≤ SAFE_MAX_BYTES
    · simp [export_loop_go, h1]
    · by_cases h2 : c ≤ 50
      · simp [export_loop_go, h1, h2]
      · rw [export_loop_go_step f (n + 1) c h1 h2 (by omega), Nat.add_sub_cancel]
        exact ih _ (by have := shrink_step_lt c (by omega); omega)

theorem c3_chain (f : Nat → Nat) :
    export_driver f 5000 = export_loop_go f 8 5000 ∧
    export_result_spec f (export_loop_go f 8 5000) := by
  have hd : export_driver f 5000 = export_loop_go f 5001 5000 := by
    have hc : clamp_limit 5000 = 5000 := by decide
    simp [export_driver, hc]
  rw [hd]
  by_cases h1 : f 5000 ≤ SAFE_MAX_BYTES
  · rw [export_loop_go_emit f 5001 5000 h1 (by decide), export_loop_go_emit f 8 5000 h1 (by decide)]
    exact ⟨rfl, h1, by decide, by decide⟩
  rw [export_loop_go_step f 5001 5000 h1 (by decide) (by decide),
    export_loop_go_step f 8 5000 h1 (by decide) (by decide),
    show (5001 : Nat) - 1 = 5000 from rfl, show (8 : Nat) - 1 = 7 from rfl,
    show shrink_step 5000 = 2500 by decide]
  by_cases h2 : f 2500 ≤ SAFE_MAX_BYTES
  · rw [export_loop_go_emit f 5000 2500 h2 (by decide), export_loop_go_emit f 7 2500 h2 (by decide)]
    exact ⟨rfl, h2, by decide, by decide⟩
  rw [export_loop_go_step f 5000 2500 h2 (by decide) (by decide),
    export_loop_go_step f 7 2500 h2 (by decide) (by decide),
    show (5000 : Nat) - 1 = 4999 from rfl, show (7 : Nat) - 1 = 6 from rfl,
    show shrink_step 2500 = 1250 by decide]
  by_cases h3 : f 1250 ≤ SAFE_MAX_BYTES
  · rw [export_loop_go_emit f 4999 1250 h3 (by decide), export_loop_go_emit f 6 1250 h3 (by decide)]
    exact ⟨rfl, h3, by decide, by decide⟩
  rw [export_loop_go_step f 4999 1250 h3 (by decide) (by decide),
    export_loop_go_step f 6 1250 h3 (by decide) (by decide),
    show (4999 : Nat) - 1 = 4998 from rfl, show (6 : Nat) - 1 = 5 from rfl,
    show shrink_step 1250 = 625 by decide]
  by_cases h4 : f 625 ≤ SAFE_MAX_BYTES
  · rw [export_loop_go_emit f 4998 625 h4 (by decide), export_loop_go_emit f 5 625 h4 (by decide)]
    exact ⟨rfl, h4, by decide, by decide⟩
  rw [export_loop_go_step f 4998 625 h4 (by decide) (by decide),
    export_loop_go_step f 5 625 h4 (by decide) (by decide),
    show (4998 : Nat) - 1 = 4997 from rfl, show (5 : Nat) - 1 = 4 from rfl,
    show shrink_step 625 = 312 by decide]
  by_cases h5 : f 312 ≤ SAFE_MAX_BYTES
  · rw [export_loop_go_emit f 4997 312 h5 (by decide), export_loop_go_emit f 4 312 h5 (by decide)]
    exact ⟨rfl, h5, by decide, by decide⟩
  rw [export_loop_go_step f 4997 312 h5 (by decide) (by decide),
    export_loop_go_step f 4 312 h5 (by decide) (by decide),
    show (4997 : Nat) - 1 = 4996 from rfl, show (4 : Nat) - 1 = 3 from rfl,
    show shrink_step 312 = 156 by decide]
  by_cases h6 : f 156 ≤ SAFE_MAX_BYTES
  · rw [export_loop_go_emit f 4996 156 h6 (by decide), export_loop_go_emit f 3 156 h6 (by decide)]
    exact ⟨rfl, h6, by decide, by decide⟩
  rw [export_loop_go_step f 4996 156 h6 (by decide) (by decide),
    export_loop_go_step f 3 156 h6 (by decide) (by decide),
    show (4996 : Nat) - 1 = 4995 from rfl, show (3 : Nat) - 1 = 2 from rfl,
    show shrink_step 156 = 78 by decide]
  by_cases h7 : f 78 ≤ SAFE_MAX_BYTES
  · rw [export_loop_go_emit f 4995 78 h7 (by decide), export_loop_go_emit f 2 78 h7 (by decide)]
    exact ⟨rfl, h7, by decide, by decide⟩
  rw [export_loop_go_step f 4995 78 h7 (by decide) (by decide),
    export_loop_go_step f 2 78 h7 (by decide) (by decide),
    show (4995 : Nat) - 1 = 4994 from rfl, show (2 : Nat) - 1 = 1 from rfl,
    show shrink_step 78 = 50 by decide]
  by_cases h8 : f 50 ≤ SAFE_MAX_BYTES
  · rw [export_loop_go_emit f 4994 50 h8 (by decide), export_loop_go_emit f 1 50 h8 (by decide)]
    exact ⟨rfl, h8, by decide, by decide⟩
  · rw [export_loop_go_giveup f 4994 50 h8 (by decide) (by decide),
      export_loop_go_giveup f 1 50 h8 (by decide) (by decide)]
    exact ⟨rfl, Nat.not_le.mp h8⟩

/-! ### Claim C3 -/

/-- Claim C3, confirmed.  The shrink loop of `ExportHtmlCog.export` always
terminates (the fuelled model never runs out of fuel for any starting
limit); for a count above the floor the halving step stays at or above the
floor of 50 and strictly decreases; and for any provider size function,
`export(channel, 5000)` needs at most 8 iterations (the count sequence
5000, 2500, 1250, 625, 312, 156, 78, 50) and returns either an emitted
document that fits the safety ceiling at a count between 50 and 5000, or
the give-up failure, in which case even the floor count of 50 exceeded the
ceiling. -/
theorem claim_c3_shrink_loop :
    (∀ f limit, export_driver f limit ≠ ExportOutcome.out_of_fuel) ∧
    (∀ c, 50 < c → 50 ≤ shrink_step c ∧ shrink_step c < c) ∧
    (∀ f, export_driver f 5000 = export_loop_go f 8 5000) ∧
    (∀ f, export_result_spec f (export_driver f 5000)) := by
  refine ⟨fun f limit => ?_, fun c h => ⟨Nat.le_max_left _ _, shrink_step_lt c h⟩,
    fun f => (c3_chain f).1, fun f => ?_⟩
  · exact export_loop_go_total f _ _ (Nat.lt_succ_self _)
  · rw [(c3_chain f).1]
    exact (c3_chain f).2

/-- Witness for claim C3: the theorem applied to the constant-zero size
function at limit 5000 and to the concrete count 100. -/
theorem claim_c3_witness :
    export_driver (fun _ => 0) 5000 ≠ ExportOutcome.out_of_fuel ∧
    (50 ≤ shrink_step 100 ∧ shrink_step 100 < 100) ∧
    export_driver (fun _ => 0) 5000 = export_loop_go (fun _ => 0) 8 5000 ∧
    export_result_spec (fun _ => 0) (export_driver (fun _ => 0) 5000) :=
  ⟨claim_c3_shrink_loop.1 _ 5000, claim_c3_shrink_loop.2.1 100 (by decide),
    claim_c3_shrink_loop.2.2.1 _, claim_c3_shrink_loop.2.2.2 _⟩

/-! ### Claim C4 -/

/-- Counterexample to claim C4 as stated: the broadcast-mention span
produced for the literal `@everyone` in step 1 IS re-entered by the later
generic mention-styling pass — its `@everyone` text sits after a `>`
character, which passes both lookbehinds `(?<!<)` and `(?<![\w/])` — so
the token ends up with two nested enclosing spans, not at most one. -/
theorem claim_c4_counterexample :
    apply_inline_formatting "@everyone".data =
      "<span class=\"mention-ping\"><span class=\"mention\">@everyone</span></span>".data ∧
    apply_inline_formatting "@everyone".data ≠
      "<span class=\"mention-ping\">@everyone</span>".data ∧
    count_occ "<span".data (apply_inline_formatting "@everyone".data) = 2 := by
  decide

/-- Claim C4, corrected.  The later inline-formatting passes do operate
outside tags inserted by earlier passes, except that the generic
`@`-mention pass re-enters the broadcast-mention span: a literal
`@everyone` or `@here` is wrapped in a generic `mention` span nested
directly inside its `mention-ping` span, so broadcast tokens receive
exactly two enclosing spans rather than at most one. -/
theorem claim_c4_mention_spans :
    apply_inline_formatting "@everyone".data =
      "<span class=\"mention-ping\"><span class=\"mention\">@everyone</span></span>".data ∧
    apply_inline_formatting "@here".data =
      "<span class=\"mention-ping\"><span class=\"mention\">@here</span></span>".data ∧
    count_occ "<span".data (apply_inline_formatting "@here".data) = 2 := by
  decide

/-! ### Claim C5 -/

/-- Counterexample to claim C5 as stated: there is no underline pass in
`apply_inline_formatting`.  The well-delimited `__x__` is left completely
untouched — the italic underscore pattern rejects doubled delimiters via
its negative lookarounds, and no other pass matches — so the output
contains no markup at all, let alone underline markup distinct from
italics. -/
theorem claim_c5_counterexample :
    apply_inline_formatting "__x__".data = "__x__".data ∧
    count_occ "<".data (apply_inline_formatting "__x__".data) = 0 := by
  decide

/-- Claim C5, corrected.  The inline formatter applies bold (`**text**`),
then strikethrough (`~~text~~`), then the two italic forms (`*text*`, then
`_text_`), in that order; there is no underline pass, and a well-delimited
`__text__` is left as literal text.  Italic matching never fires on doubled
delimiters: `**x**` renders as bold, never as italic. -/
theorem claim_c5_formatting_order :
    apply_inline_formatting "**x**".data = "<strong>x</strong>".data ∧
    apply_inline_formatting "~~x~~".data = "<del>x</del>".data ∧
    apply_inline_formatting "*x*".data = "<em>x</em>".data ∧
    apply_inline_formatting "_x_".data = "<em>x</em>".data ∧
    apply_inline_formatting "__x__".data = "__x__".data ∧
    count_occ "<em>".data (apply_inline_formatting "**x**".data) = 0 := by
  decide

/-! ### Claim C6 -/

/-- Counterexample to claim C6 as stated: on the input `***x***` the bold
pass lazily matches `**(*x)**`, leaving a trailing `*`, and the italic
pass then matches from the leftover asterisk inside `<strong>` across the
closing tag, producing `<strong><em>x</strong></em>` — overlapping,
improperly nested emphasis tags, and not the literal fallback either. -/
theorem claim_c6_counterexample :
    apply_inline_formatting "***x***".data = "<strong><em>x</strong></em>".data ∧
    emph_nest_ok (apply_inline_formatting "***x***".data) = false ∧
    apply_inline_formatting "***x***".data ≠ "***x***".data := by
  decide

/-- Claim C6, corrected.  Rendering `***x***` produces
`<strong><em>x</strong></em>`: each emphasis tag is individually complete
and opening/closing tag counts are balanced (one of each), but the strong
and em ranges overlap instead of nesting, so the formatter does emit
malformed (improperly nested) markup for mixed emphasis delimiters. -/
theorem claim_c6_mixed_emphasis :
    apply_inline_formatting "***x***".data = "<strong><em>x</strong></em>".data ∧
    count_occ "<strong>".data (apply_inline_formatting "***x***".data) = 1 ∧
    count_occ "</strong>".data (apply_inline_formatting "***x***".data) = 1 ∧
    count_occ "<em>".data (apply_inline_formatting "***x***".data) = 1 ∧
    count_occ "</em>".data (apply_inline_formatting "***x***".data) = 1 ∧
    emph_nest_ok (apply_inline_formatting "***x***".data) = false := by
  decide

/-! ### Helper lemmas about code fragments -/

theorem any_newline_false (part : List Char) (h : ∀ c ∈ part, c ≠ '\n') :
    part.any (fun c => c == '\n') = false := by
  rw [List.any_eq_false]
  intro c hc
  simpa using h c hc

theorem takeWhile_append_newline (first rest : List Char) (h : ∀ c ∈ first, c ≠ '\n') :
    (first ++ '\n' :: rest).takeWhile (fun c => c != '\n') = first := by
  induction first with
  | nil => simp [List.takeWhile]
  | cons c t ih =>
    have hc : c ≠ '\n' := h c (by simp)
    have ht : ∀ x ∈ t, x ≠ '\n' := fun x hx => h x (by simp [hx])
    simp [List.takeWhile_cons, hc, ih ht]

theorem drop_append_newline (first rest : List Char) :
    (first ++ '\n' :: rest).drop (first.length + 1) = rest := by
  induction first with
  | nil => simp
  | cons c t ih => simp [ih]

theorem any_append_newline (first rest : List Char) :
    (first ++ '\n' :: rest).any (fun c => c == '\n') = true := by
  simp [List.any_append]

/-- A fenced code fragment without a newline is rendered as its body,
escaped exactly once, inside the `pre`/`code` wrapper — no language tag is
stripped, no caption is emitted, and no inline-formatting or reference
pass runs over the body. -/
theorem render_code_fragment_no_newline (part : List Char) (h : ∀ c ∈ part, c ≠ '\n') :
    render_code_fragment part =
      "<pre class=\"codeblock\"><code>".data ++ html_escape part ++ "</code></pre>".data := by
  have h2 := any_newline_false part h
  simp [render_code_fragment, h2]

/-! ### Claim C2 -/

/-- Counterexample to claim C2 as stated: `replace_discord_mentions_to_names`
runs over the whole message before the fence split, so the reference
`<@123>` inside the fenced region is resolved and replaced by `@Alice`;
neither the escaped literal `&lt;@123&gt;` nor the raw identifier `123`
appears in the output. -/
theorem claim_c2_counterexample :
    render_discord_markdown "```<@123>```".data (some c2_dir) =
      "<pre class=\"codeblock\"><code>@Alice</code></pre>".data ∧
    count_occ "&lt;@123&gt;".data
      (render_discord_markdown "```<@123>```".data (some c2_dir)) = 0 ∧
    count_occ "123".data (render_discord_markdown "```<@123>```".data (some c2_dir)) = 0 := by
  decide

/-- Claim C2, corrected.  Text inside a triple-backtick fenced code region
is escaped and never pattern-matched for inline formatting —
`` ```**bold**``` `` yields the literal `**bold**` unstyled inside the code
fragment, and a newline-free fragment renders as exactly its escaped body —
but user/role/channel references are substituted over the whole message
before fence splitting, so a reference token inside a fence is resolved or
replaced rather than kept as escaped literal text. -/
theorem claim_c2_code_fence :
    (∀ part : List Char, (∀ c ∈ part, c ≠ '\n') →
      render_code_fragment part =
        "<pre class=\"codeblock\"><code>".data ++ html_escape part ++ "</code></pre>".data) ∧
    render_discord_markdown "```**bold**```".data none =
      "<pre class=\"codeblock\"><code>**bold**</code></pre>".data ∧
    (∀ raw guild, render_discord_markdown raw guild =
      render_fragments_go 0 (split_fence (replace_discord_mentions_to_names raw guild))) :=
  ⟨render_code_fragment_no_newline, by decide, fun raw guild => rfl⟩

/-- Witness for claim C2: the code-fragment conjunct applied to `abc`. -/
theorem claim_c2_witness :
    render_code_fragment "abc".data =
      "<pre class=\"codeblock\"><code>".data ++ html_escape "abc".data ++
        "</code></pre>".data :=
  claim_c2_code_fence.1 "abc".data (by decide)

/-! ### Claim C7 -/

/-- Claim C7, corrected.  For reference occurrences whose directory lookup
returns not-found: a user reference is replaced by the empty string (the
reference vanishes, surrounding text unchanged, the identifier never
appears), a role reference by the placeholder `@ロール` and a channel
reference by the placeholder `#チャンネル` (the Japanese generic
placeholders, not the ASCII `@role` / `#channel` of the original claim);
resolution is total, so a miss never fails the export. -/
theorem claim_c7_unresolved_references (g : Directory)
    (hu : g.user 5 = none) (hr : g.role 6 = none) (hc : g.channel 7 = none) :
    replace_discord_mentions_to_names "a <@5> b <@&6> c <#7> d".data (some g) =
      "a  b @ロール c #チャンネル d".data := by
  have e5 : digits_val ['5'] = 5 := by decide
  have e6 : digits_val ['6'] = 6 := by decide
  have e7 : digits_val ['7'] = 7 := by decide
  simp [replace_discord_mentions_to_names, sub_user_go, sub_role_go, sub_channel_go,
    match_user_mention, match_role_mention, match_channel_mention,
    display_user, display_role, display_channel, e5, e6, e7, hu, hr, hc]

/-- Counterexample to claim C7 as stated: an unresolvable role reference is
replaced by `@ロール`, not by the ASCII placeholder `@role`, and an
unresolvable channel reference by `#チャンネル`, not `#channel`. -/
theorem claim_c7_counterexample :
    replace_discord_mentions_to_names "<@&1>".data (some c7_dir) = "@ロール".data ∧
    replace_discord_mentions_to_names "<@&1>".data (some c7_dir) ≠ "@role".data ∧
    replace_discord_mentions_to_names "<#2>".data (some c7_dir) = "#チャンネル".data ∧
    replace_discord_mentions_to_names "<#2>".data (some c7_dir) ≠ "#channel".data ∧
    replace_discord_mentions_to_names "x<@3>y".data (some c7_dir) = "xy".data := by
  decide

/-- Witness for claim C7: the theorem applied to the all-miss directory. -/
theorem claim_c7_witness :
    replace_discord_mentions_to_names "a <@5> b <@&6> c <#7> d".data (some c7_dir) =
      "a  b @ロール c #チャンネル d".data :=
  claim_c7_unresolved_references c7_dir rfl rfl rfl

/-! ### Claim C8 -/

theorem attach_loop_spec (atts : List Attachment) :
    ∀ imgs files, attach_loop atts imgs files =
      (imgs ++ (atts.filter is_image).map image_html,
        files ++ (atts.filter (fun a => !is_image a)).map file_html) := by
  induction atts with
  | nil => simp [attach_loop]
  | cons a rest ih =>
    intro imgs files
    cases h : is_image a with
    | true => simp [attach_loop, h, ih, List.filter_cons]
    | false => simp [attach_loop, h, ih, List.filter_cons]

/-- Claim C8, corrected.  Attachments are classified by declared content
type or filename suffix into images and generic files, images render as
clickable thumbnails and the rest as plain download links — but the
rendered order is NOT the source order when the classes interleave: all
image fragments come first (in source order, wrapped in one `attach` div)
followed by all file fragments (in source order). -/
theorem claim_c8_attachment_order (atts : List Attachment) :
    attachments_to_html atts =
      (if (atts.filter is_image).isEmpty then [] else
        "<div class=\"attach\">".data ++
          ((atts.filter is_image).map image_html).flatten ++ "</div>".data) ++
      ((atts.filter (fun a => !is_image a)).map file_html).flatten := by
  cases atts with
  | nil => simp [attachments_to_html]
  | cons a rest => simp [attachments_to_html, attach_loop_spec]

/-- Counterexample to claim C8 as stated: with the source list
`[a.txt (file), b.png (image)]` the rendered fragments are NOT in source
order — the image fragment for `b.png` appears strictly before the file
fragment for `a.txt`. -/
theorem claim_c8_counterexample :
    attachments_to_html [c8_file, c8_img] =
      ("<div class=\"attach\"><a href=\"u2\" target=\"_blank\" rel=\"noopener noreferrer\">" ++
        "<img src=\"u2\" alt=\"b.png\"></a></div><div class=\"filelink\">" ++
        "<a href=\"u1\" target=\"_blank\" rel=\"noopener noreferrer\">a.txt</a></div>").data ∧
    first_occ "b.png".data (attachments_to_html [c8_file, c8_img]) <
      first_occ "a.txt".data (attachments_to_html [c8_file, c8_img]) ∧
    is_image c8_file = false ∧ is_image c8_img = true := by
  decide

/-! ### Claim C9 -/

/-- Claim C9, corrected.  A language tag is stripped only when the fragment
has at least two lines: when the body contains a newline, the first line is
at most 20 characters long, and its whitespace-stripped form (stripping the
Unicode whitespace of `str.strip()`, so U+00A0 or U+3000 padding is removed
like ASCII spaces) is nonempty and matches the restricted identifier
pattern, the stripped form becomes the caption and is removed from the
body; a newline-free fragment is never stripped even if it matches; and a
first line failing the length test, or whose stripped form is empty or
fails the pattern test, leaves the fragment unstripped with no caption.
The original claim missed the stripping (a first line ` python ` with
surrounding whitespace does not match the restricted pattern but is still
treated as a tag, see the counterexample) and the newline requirement. -/
theorem claim_c9_language_tag :
    (∀ first rest : List Char, (∀ c ∈ first, c ≠ '\n') →
      first.length ≤ 20 → py_strip first ≠ [] →
      (py_strip first).all restricted_char = true →
      render_code_fragment (first ++ '\n' :: rest) =
        "<pre class=\"codeblock\"><code>".data ++ html_escape rest ++
          "</code></pre>".data ++
          ("<div class=\"lang\">".data ++ html_escape (py_strip first) ++ "</div>".data)) ∧
    (∀ part : List Char, (∀ c ∈ part, c ≠ '\n') →
      render_code_fragment part =
        "<pre class=\"codeblock\"><code>".data ++ html_escape part ++
          "</code></pre>".data) ∧
    (∀ first rest : List Char, (∀ c ∈ first, c ≠ '\n') →
      ¬(first.length ≤ 20 ∧ py_strip first ≠ [] ∧
        (py_strip first).all restricted_char = true) →
      render_code_fragment (first ++ '\n' :: rest) =
        "<pre class=\"codeblock\"><code>".data ++ html_escape (first ++ '\n' :: rest) ++
          "</code></pre>".data) := by
  refine ⟨fun first rest h h20 hne hall => ?_, render_code_fragment_no_newline,
    fun first rest h hno => ?_⟩
  · have htw := takeWhile_append_newline first rest h
    have hany := any_append_newline first rest
    have hdr := drop_append_newline first rest
    have h1 : decide (first.length ≤ 20) = true := decide_eq_true h20
    have h2 : (py_strip first).isEmpty = false := by
      cases e : py_strip first with
      | nil => exact absurd e hne
      | cons a b => rfl
    simp [render_code_fragment, htw, hany, hdr, h1, h2, hall]
  · have htw := takeWhile_append_newline first rest h
    have hany := any_append_newline first rest
    have htag : (decide (first.length ≤ 20) && !(py_strip first).isEmpty &&
        (py_strip first).all restricted_char) = false := by
      by_cases hA : first.length ≤ 20
      · by_cases hB : py_strip first = []
        · simp [hB]
        · by_cases hC : (py_strip first).all restricted_char = true
          · exact absurd ⟨hA, hB, hC⟩ hno
          · simp [hC]
      · simp [hA]
    simp [render_code_fragment, htw, hany, htag]

/-- Counterexample to claim C9 as stated: the first line ` python ` of the
fenced block does not match the restricted identifier pattern (it contains
spaces), yet the code strips it after whitespace-stripping and emits a
`python` caption, with only `body` left in the code fragment. -/
theorem claim_c9_counterexample :
    render_discord_markdown "``` python \nbody```".data none =
      ("<pre class=\"codeblock\"><code>body</code></pre>" ++
        "<div class=\"lang\">python</div>").data ∧
    (" python ".data.all restricted_char) = false ∧
    count_occ "<div class=\"lang\">".data
      (render_discord_markdown "``` python \nbody```".data none) = 1 := by
  decide

/-- Witness for claim C9: the three conjuncts applied at concrete
fragments (`py`-tagged body, a first line padded with the ideographic
space U+3000 that `str.strip()` removes, newline-free body, and a first
line whose stripped form fails the pattern test). -/
theorem claim_c9_witness :
    render_code_fragment ("py".data ++ '\n' :: "z".data) =
      "<pre class=\"codeblock\"><code>".data ++ html_escape "z".data ++
        "</code></pre>".data ++
        ("<div class=\"lang\">".data ++ html_escape (py_strip "py".data) ++ "</div>".data) ∧
    render_code_fragment ((Char.ofNat 12288 :: "python".data) ++ '\n' :: "z".data) =
      "<pre class=\"codeblock\"><code>".data ++ html_escape "z".data ++
        "</code></pre>".data ++
        ("<div class=\"lang\">".data ++
          html_escape (py_strip (Char.ofNat 12288 :: "python".data)) ++ "</div>".data) ∧
    render_code_fragment "lonely".data =
      "<pre class=\"codeblock\"><code>".data ++ html_escape "lonely".data ++
        "</code></pre>".data ∧
    render_code_fragment ("a b".data ++ '\n' :: "z".data) =
      "<pre class=\"codeblock\"><code>".data ++ html_escape ("a b".data ++ '\n' :: "z".data) ++
        "</code></pre>".data :=
  ⟨claim_c9_language_tag.1 "py".data "z".data (by decide) (by decide) (by decide) (by decide),
    claim_c9_language_tag.1 (Char.ofNat 12288 :: "python".data) "z".data
      (by decide) (by decide) (by decide) (by decide),
    claim_c9_language_tag.2.1 "lonely".data (by decide),
    claim_c9_language_tag.2.2 "a b".data "z".data (by decide) (by decide)⟩

/-! ### Claim C10 -/

theorem split_fence_go_ne_nil :
    ∀ fuel (acc s : List Char), split_fence_go fuel acc s ≠ [] := by
  intro fuel
  induction fuel with
  | zero => intro acc s; simp [split_fence_go]
  | succ n ih =>
    intro acc s
    cases s with
    | nil => simp [split_fence_go]
    | cons c t =>
      rw [split_fence_go]
      split_ifs with h
      · simp
      · exact ih _ _

theorem split_fence_ne_nil (s : List Char) : split_fence s ≠ [] :=
  split_fence_go_ne_nil _ _ _

theorem render_fragments_go_append_code (x : List Char) :
    ∀ (ps : List (List Char)) (i : Nat), (i + ps.length) % 2 = 1 →
      render_fragments_go i (ps ++ [x]) =
        render_fragments_go i ps ++ render_code_fragment x := by
  intro ps
  induction ps with
  | nil =>
    intro i h
    simp only [List.length_nil, Nat.add_zero] at h
    simp [render_fragments_go, render_fragment, h]
  | cons p ps ih =>
    intro i h
    have h2 : (i + 1 + ps.length) % 2 = 1 := by
      simp only [List.length_cons] at h
      omega
    simp [render_fragments_go, ih (i + 1) h2]

theorem eq_dropLast_append_getLastD {α : Type} (d : α) :
    ∀ l : List α, l ≠ [] → l = l.dropLast ++ [l.getLastD d] := by
  intro l
  induction l with
  | nil => intro h; exact absurd rfl h
  | cons a t ih =>
    intro _
    cases t with
    | nil => simp
    | cons b u =>
      have := ih (by simp)
      simpa [List.dropLast_cons₂] using this

/-- Claim C10, confirmed.  For a message whose resolved body contains an
odd number of triple-backtick delimiters, the fence split yields an even
number of fragments, the final fragment (the text after the last
delimiter) sits at an odd split position, and the rendered output is the
rendering of the earlier fragments followed by the code-block rendering of
that final fragment — so unterminated-fence text is rendered as code, not
prose; and a newline-free code fragment renders as exactly its escaped
body inside the `pre`/`code` wrapper. -/
theorem claim_c10_unterminated_fence :
    (∀ raw guild,
      (split_fence (replace_discord_mentions_to_names raw guild)).length % 2 = 0 →
      render_discord_markdown raw guild =
        render_fragments_go 0
            (split_fence (replace_discord_mentions_to_names raw guild)).dropLast ++
          render_code_fragment
            ((split_fence (replace_discord_mentions_to_names raw guild)).getLastD [])) ∧
    (∀ part : List Char, (∀ c ∈ part, c ≠ '\n') →
      render_code_fragment part =
        "<pre class=\"codeblock\"><code>".data ++ html_escape part ++
          "</code></pre>".data) := by
  refine ⟨fun raw guild h => ?_, render_code_fragment_no_newline⟩
  have hne : split_fence (replace_discord_mentions_to_names raw guild) ≠ [] :=
    split_fence_ne_nil _
  have hlen : (split_fence (replace_discord_mentions_to_names raw guild)).length ≠ 0 :=
    fun h0 => hne (List.length_eq_zero.mp h0)
  have hmod :
      (0 + (split_fence (replace_discord_mentions_to_names raw guild)).dropLast.length) % 2
        = 1 := by
    rw [List.length_dropLast]
    omega
  calc render_discord_markdown raw guild
      = render_fragments_go 0
          (split_fence (replace_discord_mentions_to_names raw guild)) := rfl
    _ = render_fragments_go 0
          ((split_fence (replace_discord_mentions_to_names raw guild)).dropLast ++
            [(split_fence (replace_discord_mentions_to_names raw guild)).getLastD []]) := by
        rw [← eq_dropLast_append_getLastD [] _ hne]
    _ = _ := render_fragments_go_append_code _ _ 0 hmod

/-- Witness for claim C10: the theorem applied to the raw body `x```y`
(one delimiter, so two fragments) and to the fragment `abc`. -/
theorem claim_c10_witness :
    render_discord_markdown "x```y".data none =
      render_fragments_go 0
          (split_fence (replace_discord_mentions_to_names "x```y".data none)).dropLast ++
        render_code_fragment
          ((split_fence (replace_discord_mentions_to_names "x```y".data none)).getLastD []) ∧
    render_code_fragment "abc".data =
      "<pre class=\"codeblock\"><code>".data ++ html_escape "abc".data ++
        "</code></pre>".data :=
  ⟨claim_c10_unterminated_fence.1 "x```y".data none (by decide),
    claim_c10_unterminated_fence.2 "abc".data (by decide)⟩
